import Mathlib

/-!
Connectivity and action-dispatch core of the sensor simulator.

A shallow embedding of `action_handler.h`, `mqtt_client.cpp`, the callback,
startup and shutdown code of `main.cpp` and the compass of
`sensor_simulator.cpp`, followed by theorems about it.

Conventions of the embedding:
* `std::string` is a Lean `String`; positions count characters.
* A handler is a `std::function<std::string(const std::string&)>` that may have
  side effects (the handlers of `main.cpp` print to standard output).  The
  effect is made explicit: a handler maps a payload and a world `σ` to its
  return value and the new world.
* The mosquitto library is a stub transport: every call made to it is appended
  to a trace of `TransportCall`s and its return codes are supplied by an
  arbitrary function `rc` of the trace so far and the call.
* The lambdas of `main.cpp` discard the results of the calls they make on the
  session, so each is the list of these calls, run in order on the session.
* The values `isConnected()` returns while `main` waits are given by an
  arbitrary function of the number of the call.
* Floating point is replaced by exact rational arithmetic.
-/

namespace SensorCore

/-! ## `action_handler.h` -/

/-- The type `ActionHandler::HandlerFunc`, with the side effect on `σ` explicit. -/
abbrev HandlerFunc (σ : Type) := String → σ → String × σ

/-- The lookup `std::map::find`: the value stored under `key`, if any. -/
def map_find {β : Type} : List (String × β) → String → Option β
  | [], _ => none
  | (k, v) :: rest, key => if key = k then some v else map_find rest key

/-- The assignment `m[key] = value` of a `std::map`, kept as a key-ordered
association list: an existing entry is overwritten, a new one is inserted at
its place in the order. -/
def map_assign {β : Type} : List (String × β) → String → β → List (String × β)
  | [], key, value => [(key, value)]
  | (k, v) :: rest, key, value =>
    if key = k then (k, value) :: rest
    else if key < k then (key, value) :: (k, v) :: rest
    else (k, v) :: map_assign rest key value

/-- The class `ActionHandler`: its only member is the map `action_handlers_`. -/
structure ActionHandler (σ : Type) where
  action_handlers_ : List (String × HandlerFunc σ)

/-- A freshly constructed `ActionHandler`: the map is empty. -/
def ActionHandler.new (σ : Type) : ActionHandler σ := ⟨[]⟩

/-- The method `ActionHandler::register_action_handler`. -/
def ActionHandler.register_action_handler {σ : Type} (self : ActionHandler σ)
    (topic : String) (handler : HandlerFunc σ) : ActionHandler σ :=
  ⟨map_assign self.action_handlers_ topic handler⟩

/-- The method `ActionHandler::run_handler`: the pair `(found, result)` and the
world after the call. No handler runs when the topic is absent. -/
def ActionHandler.run_handler {σ : Type} (self : ActionHandler σ)
    (topic payload : String) (w : σ) : (Bool × String) × σ :=
  match map_find self.action_handlers_ topic with
  | some handler => let r := handler payload w; ((true, r.1), r.2)
  | none => ((false, "No handler for action: " ++ topic), w)

/-- A sequence of `register_action_handler` calls, applied in order. -/
def ActionHandler.register_all {σ : Type} (self : ActionHandler σ) :
    List (String × HandlerFunc σ) → ActionHandler σ
  | [] => self
  | (topic, handler) :: rest =>
    ActionHandler.register_all (self.register_action_handler topic handler) rest

/-! ## `std::string` members used by `main.cpp` -/

/-- The largest `size_t` of the 64-bit target. -/
def SIZE_MAX : Nat := 2 ^ 64 - 1

/-- The constant `std::string::npos`. -/
def npos : Nat := SIZE_MAX

/-- Addition of `size_t` values, which wraps around. -/
def size_add (a b : Nat) : Nat := (a + b) % 2 ^ 64

/-- The position of the last occurrence of `c` in a character sequence. -/
def last_index : List Char → Char → Option Nat
  | [], _ => none
  | x :: xs, c =>
    match last_index xs c with
    | some i => some (i + 1)
    | none => if x = c then some 0 else none

/-- The member `std::string::find_last_of(char)`: the position of the last
occurrence, or `npos`. -/
def find_last_of (s : String) (c : Char) : Nat :=
  match last_index s.data c with
  | some i => i
  | none => npos

/-- The member `std::string::substr(pos)`: the characters from `pos` on; it
throws `std::out_of_range` (here `none`) when `pos` exceeds the size. -/
def substr (s : String) (pos : Nat) : Option String :=
  if pos > s.length then none else some (String.mk (s.data.drop pos))

/-- The expression `full_topic.substr(full_topic.find_last_of('/') + 1)` of
`main.cpp`, which extracts the action name. -/
def action_topic_of (full_topic : String) : Option String :=
  substr full_topic (size_add (find_last_of full_topic '/') 1)

/-! ## The protobuf messages of `actions.pb.h` -/

/-- Modelled from the spec: the generated class `actions::ActionRequest` is not
among the sources; the inbound envelope has the fields `topic`, `ack_topic`
and `payload`, read in `main.cpp` through the accessors of the same names. -/
structure ActionRequest where
  topic : String
  ack_topic : String
  payload : String
  deriving DecidableEq, Repr

/-- Modelled from the spec: the generated class `actions::ActionAck` is not
among the sources; the outbound envelope has the fields `ack` (action name),
`success`, `error` and `result`. -/
structure ActionAck where
  ack : String
  success : Bool
  error : String
  result : String
  deriving DecidableEq, Repr

/-- A default-constructed `actions::ActionAck`: every field has its protobuf
default. -/
def ActionAck.new : ActionAck := ⟨"", false, "", ""⟩

/-- The generated setter `set_ack`. -/
def ActionAck.set_ack (m : ActionAck) (v : String) : ActionAck := { m with ack := v }

/-- The generated setter `set_success`. -/
def ActionAck.set_success (m : ActionAck) (v : Bool) : ActionAck := { m with success := v }

/-- The generated setter `set_error`. -/
def ActionAck.set_error (m : ActionAck) (v : String) : ActionAck := { m with error := v }

/-- The generated setter `set_allocated_ack`, called with a freshly allocated
string: the field `ack` takes that string as its value. -/
def ActionAck.set_allocated_ack (m : ActionAck) (v : String) : ActionAck := { m with ack := v }

/-! ## `mqtt_client.cpp` over a stub transport -/

/-- The calls the session makes to the mosquitto library. -/
inductive TransportCall where
  | mosquitto_new (id : Option String)
  | mosquitto_destroy
  | mosquitto_username_pw_set (username password : String)
  | mosquitto_will_set (topic : String) (payloadlen : Nat) (payload : String) (qos : Int)
      (retain : Bool)
  | mosquitto_connect (host : String) (port keepalive : Int)
  | mosquitto_disconnect
  | mosquitto_publish (topic : String) (payloadlen : Nat) (payload : String) (qos : Int)
      (retain : Bool)
  | mosquitto_loop_start
  | mosquitto_loop_stop (force : Bool)
  | mosquitto_subscribe (sub : String) (qos : Int)
  deriving DecidableEq, Repr

/-- The stub transport: the return code of a call, given the calls made so
far. For `mosquitto_new` the code `0` stands for a non-null instance. -/
abbrev Stub := List TransportCall → TransportCall → Int

/-- The constant `MOSQ_ERR_SUCCESS`. -/
def MOSQ_ERR_SUCCESS : Int := 0

/-- The calls user code makes on the session whose results it discards; the
lambdas and the shutdown code of `main.cpp` are sequences of them. -/
inductive ClientCall where
  | publish (topic message : String) (qos : Int)
  | publishRetained (topic message : String) (qos : Int)
  | disconnect
  | loopStop
  | subscribe (topic : String) (qos : Int)
  deriving DecidableEq, Repr

/-- The data members of `MqttClient`; `mosq_` records whether the pointer is
non-null, an unset `std::function` is `none`. -/
structure MqttClient where
  mosq_ : Bool
  client_id_ : String
  username_ : String
  password_ : String
  will_topic_ : String
  will_message_ : String
  will_qos_ : Int
  connected_ : Bool
  on_connect_callback_ : Option (Int → List ClientCall)
  on_disconnect_callback_ : Option (Int → List ClientCall)
  on_publish_callback_ : Option (Int → List ClientCall)

/-- A session object together with the trace of the transport calls made. -/
structure Session where
  client : MqttClient
  trace : List TransportCall

/-- Record one call to the transport. -/
def Session.emit (s : Session) (c : TransportCall) : Session :=
  { s with trace := s.trace ++ [c] }

/-- The constructor `MqttClient::MqttClient`. -/
def MqttClient.new (rc : Stub) : Session :=
  let c := TransportCall.mosquitto_new none
  { client :=
      { mosq_ := decide (rc [] c = 0), client_id_ := "", username_ := "", password_ := "",
        will_topic_ := "", will_message_ := "", will_qos_ := 0, connected_ := false,
        on_connect_callback_ := none, on_disconnect_callback_ := none,
        on_publish_callback_ := none },
    trace := [c] }

/-- The method `MqttClient::connect`. -/
def MqttClient.connect (rc : Stub) (s : Session) (broker : String) (port keepalive : Int) :
    Bool × Session :=
  if !s.client.mosq_ then (false, s)
  else
    let s1 := if !s.client.client_id_.isEmpty then
        s.emit (.mosquitto_username_pw_set s.client.username_ s.client.password_)
      else s
    let s2 := if !s1.client.username_.isEmpty then
        s1.emit (.mosquitto_username_pw_set s1.client.username_ s1.client.password_)
      else s1
    let s3 := if !s2.client.will_topic_.isEmpty then
        s2.emit (.mosquitto_will_set s2.client.will_topic_ s2.client.will_message_.utf8ByteSize
          s2.client.will_message_ s2.client.will_qos_ false)
      else s2
    let c := TransportCall.mosquitto_connect broker port keepalive
    if rc s3.trace c ≠ MOSQ_ERR_SUCCESS then (false, s3.emit c) else (true, s3.emit c)

/-- The method `MqttClient::disconnect`. -/
def MqttClient.disconnect (s : Session) : Session :=
  if s.client.mosq_ && s.client.connected_ then
    let s1 := s.emit .mosquitto_disconnect
    { s1 with client := { s1.client with connected_ := false } }
  else s

/-- The method `MqttClient::isConnected`. -/
def MqttClient.isConnected (s : Session) : Bool := s.client.connected_

/-- The method `MqttClient::publish`. -/
def MqttClient.publish (rc : Stub) (s : Session) (topic message : String) (qos : Int) :
    Bool × Session :=
  if !s.client.mosq_ || !s.client.connected_ then (false, s)
  else
    let c := TransportCall.mosquitto_publish topic message.utf8ByteSize message qos false
    if rc s.trace c ≠ MOSQ_ERR_SUCCESS then (false, s.emit c) else (true, s.emit c)

/-- The method `MqttClient::publishRetained`. -/
def MqttClient.publishRetained (rc : Stub) (s : Session) (topic message : String) (qos : Int) :
    Bool × Session :=
  if !s.client.mosq_ || !s.client.connected_ then (false, s)
  else
    let c := TransportCall.mosquitto_publish topic message.utf8ByteSize message qos true
    if rc s.trace c ≠ MOSQ_ERR_SUCCESS then (false, s.emit c) else (true, s.emit c)

/-- The method `MqttClient::setClientId`: the instance is destroyed and a new
one is created under the new identifier, which may fail. -/
def MqttClient.setClientId (rc : Stub) (s : Session) (client_id : String) : Session :=
  let s1 := { s with client := { s.client with client_id_ := client_id } }
  if s1.client.mosq_ then
    let s2 := s1.emit .mosquitto_destroy
    let c := TransportCall.mosquitto_new (some client_id)
    let s3 := s2.emit c
    { s3 with client := { s3.client with mosq_ := decide (rc s2.trace c = 0) } }
  else s1

/-- The method `MqttClient::setUsername`. -/
def MqttClient.setUsername (s : Session) (username : String) : Session :=
  { s with client := { s.client with username_ := username } }

/-- The method `MqttClient::setPassword`. -/
def MqttClient.setPassword (s : Session) (password : String) : Session :=
  { s with client := { s.client with password_ := password } }

/-- The method `MqttClient::setWill`. -/
def MqttClient.setWill (s : Session) (topic message : String) (qos : Int) : Session :=
  { s with client := { s.client with
      will_topic_ := topic, will_message_ := message, will_qos_ := qos } }

/-- The method `MqttClient::loopStart`. -/
def MqttClient.loopStart (s : Session) : Session :=
  if s.client.mosq_ then s.emit .mosquitto_loop_start else s

/-- The method `MqttClient::loopStop`. -/
def MqttClient.loopStop (s : Session) : Session :=
  if s.client.mosq_ then s.emit (.mosquitto_loop_stop true) else s

/-- Modelled from the spec: `MqttClient::subscribe` is called by `main.cpp` but
is not defined in the sources; the spec has the session subscribe to a topic
through the transport. The subscription is passed to the transport when the
instance exists and the session object is left as it is. -/
def MqttClient.subscribe (s : Session) (topic : String) (qos : Int) : Session :=
  if s.client.mosq_ then s.emit (.mosquitto_subscribe topic qos) else s

/-- Perform one call of user code on the session, discarding its result. -/
def MqttClient.call (rc : Stub) (s : Session) : ClientCall → Session
  | .publish topic message qos => (MqttClient.publish rc s topic message qos).2
  | .publishRetained topic message qos => (MqttClient.publishRetained rc s topic message qos).2
  | .disconnect => MqttClient.disconnect s
  | .loopStop => MqttClient.loopStop s
  | .subscribe topic qos => MqttClient.subscribe s topic qos

/-- Perform a sequence of calls of user code on the session, in order. -/
def MqttClient.calls (rc : Stub) (s : Session) : List ClientCall → Session
  | [] => s
  | c :: rest => MqttClient.calls rc (MqttClient.call rc s c) rest

/-- The static callback `MqttClient::onConnect`, run by the transport. -/
def MqttClient.onConnect (rc : Stub) (s : Session) (code : Int) : Session :=
  let s1 := if code = 0 then { s with client := { s.client with connected_ := true } } else s
  match s1.client.on_connect_callback_ with
  | some callback => MqttClient.calls rc s1 (callback code)
  | none => s1

/-- The lambda `handle_action_reboot`; the world is standard output. -/
def handle_action_reboot : HandlerFunc (List String) := fun payload out =>
  ("Rebooted successfully",
    out ++ ["[Handler] Reboot action triggered with payload: " ++ payload])

/-- The lambda `handle_action_message`; the world is standard output. -/
def handle_action_message : HandlerFunc (List String) := fun payload out =>
  ("Status: OK", out ++ ["[Handler] Status action triggered with payload: " ++ payload])

/-- The registry `action_handler` of `main`, after its two registrations. -/
def main_action_handler : ActionHandler (List String) :=
  ((ActionHandler.new (List String)).register_action_handler "reboot"
    handle_action_reboot).register_action_handler "message" handle_action_message

/-- The acknowledgment message the message lambda builds from the action name
and the outcome of `run_handler`, setter by setter. -/
def build_ack (action_topic : String) (found : Bool) (result : String) : ActionAck :=
  let ack_msg := ActionAck.new
  let ack_msg := ack_msg.set_ack action_topic
  let ack_msg := ack_msg.set_success found
  let ack_msg := ack_msg.set_error (if found then "" else "No handler found")
  let ack_msg := ack_msg.set_allocated_ack result
  ack_msg

/-- The body of the message lambda for a request that parsed: the calls it
makes on the session and the world after the handler ran. `serialize` is
`SerializeToString` of the acknowledgment. An exception of `substr` leaves the
lambda before any call. -/
def handle_request {σ : Type} (serialize : ActionAck → String)
    (action_handler : ActionHandler σ) (req : ActionRequest) (w : σ) : List ClientCall × σ :=
  let full_topic := req.topic
  match action_topic_of full_topic with
  | none => ([], w)
  | some action_topic =>
    let ack_topic := req.ack_topic
    let r := action_handler.run_handler action_topic req.payload w
    let found := r.1.1
    let result := r.1.2
    if !ack_topic.isEmpty then
      let ack_full_topic := "action/ack/" ++ ack_topic
      let ack_payload := serialize (build_ack action_topic found result)
      ([ClientCall.publish ack_full_topic ack_payload 1], r.2)
    else ([], r.2)

/-- The lambda given to `setOnMessage`: `parse` is `ParseFromString` of the
request; a payload that does not parse is only logged. -/
def on_message_lambda {σ : Type} (parse : String → Option ActionRequest)
    (serialize : ActionAck → String) (action_handler : ActionHandler σ)
    (_topic payload : String) (w : σ) : List ClientCall × σ :=
  match parse payload with
  | some req => handle_request serialize action_handler req w
  | none => ([], w)

/-- Delivery of one inbound message: the lambda runs and its calls are made on
the session. -/
def on_message {σ : Type} (rc : Stub) (parse : String → Option ActionRequest)
    (serialize : ActionAck → String) (action_handler : ActionHandler σ)
    (topic payload : String) (s : Session) (w : σ) : Session × σ :=
  let r := on_message_lambda parse serialize action_handler topic payload w
  (MqttClient.calls rc s r.1, r.2)

/-- The globals `running` and `g_mqtt_client` (whether it is non-null) and the
session object `mqtt_client` of `main`. -/
structure Main where
  running : Bool
  g_mqtt_client : Bool
  mqtt_client : Session

/-- The function `signalHandler`. -/
def signalHandler (m : Main) : Main :=
  let m1 := { m with running := false }
  if m1.g_mqtt_client then { m1 with mqtt_client := MqttClient.disconnect m1.mqtt_client }
  else m1

/-- The four publishes of one iteration of the simulation loop, with the
encoded views of the sample. -/
def loop_publishes (all_data_pb temp_pb compass_pb gps_pb : String) : List ClientCall :=
  [ .publish "sensor/all" all_data_pb 0,
    .publish "sensor/temperature" temp_pb 0,
    .publish "sensor/compass" compass_pb 0,
    .publish "sensor/gps" gps_pb 0 ]

/-- The cleanup at the end of `main`; `offline_status` is the value of
`ProtobufConverter::createOfflineStatus(client_id)`. -/
def cleanup (offline_status : String) : List ClientCall :=
  [ .publishRetained "sensor/status" offline_status 1, .disconnect, .loopStop ]

/-- A shutdown: the signal arrives while the simulation loop runs, after `k`
of the publishes of the current iteration. The handler runs, the iteration
makes its remaining publishes, `while (running)` ends the loop and the cleanup
runs. -/
def shutdown_on_signal (rc : Stub) (m : Main) (k : Nat)
    (all_data_pb temp_pb compass_pb gps_pb offline_status : String) : Main :=
  let iteration := loop_publishes all_data_pb temp_pb compass_pb gps_pb
  let m0 := { m with mqtt_client := MqttClient.calls rc m.mqtt_client (iteration.take k) }
  let m1 := signalHandler m0
  { m1 with mqtt_client :=
      MqttClient.calls rc m1.mqtt_client (iteration.drop k ++ cleanup offline_status) }

/-- The state of `main` while the simulation loop runs on a connected session:
`g_mqtt_client` points to the session, the instance exists and the connection
was confirmed; the configuration `c` and the trace so far are arbitrary. -/
def running_main (c : MqttClient) (tr : List TransportCall) : Main :=
  { running := true, g_mqtt_client := true,
    mqtt_client := { client := { c with mosq_ := true, connected_ := true }, trace := tr } }

/-- A stub transport on which everything succeeds except the creation of an
instance under the identifier `id`. -/
def stub_no_instance (id : String) : Stub :=
  fun _ c => if c = TransportCall.mosquitto_new (some id) then 1 else 0

/-- A user call that is a plain `publish`. -/
def ClientCall.is_publish : ClientCall → Bool
  | .publish _ _ _ => true
  | _ => false

/-- The method `MqttClient::setOnConnect`. -/
def MqttClient.setOnConnect (s : Session) (callback : Int → List ClientCall) : Session :=
  { s with client := { s.client with on_connect_callback_ := some callback } }

/-- The method `MqttClient::setOnDisconnect`. -/
def MqttClient.setOnDisconnect (s : Session) (callback : Int → List ClientCall) : Session :=
  { s with client := { s.client with on_disconnect_callback_ := some callback } }

/-- The method `MqttClient::setOnPublish`. -/
def MqttClient.setOnPublish (s : Session) (callback : Int → List ClientCall) : Session :=
  { s with client := { s.client with on_publish_callback_ := some callback } }

/-- The lambda given to `setOnConnect` in `main`: `g_mqtt_client` tells whether
the global pointer is non-null, `online_status` is the value of
`ProtobufConverter::createOnlineStatus(client_id)`. -/
def on_connect_lambda (g_mqtt_client : Bool) (online_status : String) (code : Int) :
    List ClientCall :=
  if code = 0 then
    if g_mqtt_client then
      [ .publishRetained "sensor/status" online_status 1, .subscribe "action/#" 1 ]
    else []
  else []

/-- The configuration of the session in `main`, from the construction of
`mqtt_client` to the registration of the callbacks; the lambdas given to
`setOnDisconnect` and `setOnPublish` make no call on the session. -/
def main_configure (rc : Stub) (client_id username password offline_status online_status : String) :
    Session :=
  let s := MqttClient.new rc
  let s := MqttClient.setClientId rc s client_id
  let s := if !username.isEmpty then
      MqttClient.setPassword (MqttClient.setUsername s username) password
    else s
  let s := MqttClient.setWill s "sensor/status" offline_status 1
  let s := MqttClient.setOnConnect s (on_connect_lambda true online_status)
  let s := MqttClient.setOnDisconnect s (fun _ => [])
  MqttClient.setOnPublish s (fun _ => [])

/-- The loop `while (!mqtt_client.isConnected() && retry_count < 10)` of `main`,
each turn of which sleeps one second and increments `retry_count`. The value
`isConnected i` is what the call number `i` of `isConnected()` returns, counted
from the start of the wait. The result is the final `retry_count` and the
number of calls made so far. -/
def wait_loop (isConnected : Nat → Bool) (retry_count reads : Nat) : Nat × Nat :=
  if h : (!isConnected reads && decide (retry_count < 10)) = true then
    wait_loop isConnected (retry_count + 1) (reads + 1)
  else (retry_count, reads + 1)
termination_by 10 - retry_count
decreasing_by
  simp only [Bool.and_eq_true, decide_eq_true_eq] at h
  omega

/-- The outcome of the wait for the connection: the number of one-second
sleeps, and the exit code when `main` returns instead of going on. -/
structure Startup where
  waits : Nat
  exit_code : Option Int
  deriving DecidableEq, Repr

/-- The wait for the connection in `main`: the loop, then the test
`if (!mqtt_client.isConnected())`, which calls `isConnected()` once more and
returns `1` when it is false. -/
def wait_for_connection (isConnected : Nat → Bool) : Startup :=
  let r := wait_loop isConnected 0 0
  if !isConnected r.2 then ⟨r.1, some 1⟩ else ⟨r.1, none⟩

/-! ## `sensor_simulator.cpp` -/

/-- The method `SensorSimulator::simulateCompassHeading` over the rationals:
`current_heading` is the function's static variable before the call, `draw` the
value of `compass_dist_(gen_)`; the result is the value returned, which is also
the static variable after the call. -/
def simulateCompassHeading (compass_variation_ current_heading draw : ℚ) : ℚ :=
  let variation := draw * compass_variation_ / 360
  let current_heading := current_heading + variation
  let current_heading := if current_heading ≥ 360 then current_heading - 360
    else current_heading
  let current_heading := if current_heading < 0 then current_heading + 360
    else current_heading
  current_heading

theorem map_find_assign_same {β : Type} (m : List (String × β)) (key : String) (value : β) :
    map_find (map_assign m key value) key = some value := by
  induction m with
  | nil => simp [map_assign, map_find]
  | cons e rest ih =>
    obtain ⟨k, v⟩ := e
    by_cases h1 : key = k
    · simp [map_assign, map_find, h1]
    · by_cases h2 : key < k
      · simp [map_assign, map_find, h1, h2]
      · simp [map_assign, map_find, h1, h2, ih]

theorem map_find_assign_other {β : Type} (m : List (String × β)) (key other : String)
    (value : β) (h : other ≠ key) :
    map_find (map_assign m key value) other = map_find m other := by
  induction m with
  | nil => simp [map_assign, map_find, h]
  | cons e rest ih =>
    obtain ⟨k, v⟩ := e
    by_cases h1 : key = k
    · subst h1
      simp [map_assign, map_find, h]
    · by_cases h2 : key < k
      · simp [map_assign, map_find, h1, h2, h]
      · simp [map_assign, map_find, h1, h2, ih]

theorem map_assign_assign {β : Type} (m : List (String × β)) (key : String) (v1 v2 : β) :
    map_assign (map_assign m key v1) key v2 = map_assign m key v2 := by
  induction m with
  | nil => simp [map_assign]
  | cons e rest ih =>
    obtain ⟨k, v⟩ := e
    by_cases h1 : key = k
    · simp [map_assign, h1]
    · by_cases h2 : key < k
      · simp [map_assign, h1, h2]
      · simp [map_assign, h1, h2, ih]

theorem find_register_all_other {σ : Type} (ops : List (String × HandlerFunc σ))
    (self : ActionHandler σ) (n : String) (h : ∀ e ∈ ops, e.1 ≠ n) :
    map_find (self.register_all ops).action_handlers_ n = map_find self.action_handlers_ n := by
  induction ops generalizing self with
  | nil => rfl
  | cons e rest ih =>
    obtain ⟨k, v⟩ := e
    have hk : n ≠ k := fun hnk => h (k, v) (List.mem_cons_self _ _) hnk.symm
    have hrest : ∀ e ∈ rest, e.1 ≠ n := fun e he => h e (List.mem_cons_of_mem _ he)
    simp only [ActionHandler.register_all]
    rw [ih _ hrest]
    exact map_find_assign_other _ _ _ _ hk

/-! ## The action registry -/

/-- C1: for every registry state, once `n` has been registered with handler `h`
and only other names are registered afterwards, `run_handler n p` returns
`found = true` together with exactly the value `h` returns on `p`, and the
only effect is that of `h`. -/
theorem run_handler_registered {σ : Type} (m : ActionHandler σ) (n : String)
    (h : HandlerFunc σ) (later : List (String × HandlerFunc σ))
    (hlater : ∀ e ∈ later, e.1 ≠ n) (p : String) (w : σ) :
    ((m.register_action_handler n h).register_all later).run_handler n p w
      = ((true, (h p w).1), (h p w).2) := by
  have hfind : map_find ((m.register_action_handler n h).register_all later).action_handlers_ n
      = some h := by
    rw [find_register_all_other later _ n hlater]
    exact map_find_assign_same _ _ _
  simp [ActionHandler.run_handler, hfind]

/-- Witness of C1: `reboot` registered in an empty registry, then `message`. -/
theorem run_handler_registered_witness :
    (∀ e ∈ [("message", handle_action_message)], e.1 ≠ "reboot") ∧
    (((ActionHandler.new (List String)).register_action_handler "reboot"
        handle_action_reboot).register_all [("message", handle_action_message)]).run_handler
        "reboot" "p" []
      = ((true, (handle_action_reboot "p" []).1), (handle_action_reboot "p" []).2) :=
  ⟨by simp, run_handler_registered _ "reboot" handle_action_reboot
    [("message", handle_action_message)] (by simp) "p" []⟩

/-- C2: in a registry built by any sequence of registrations none of which is
for `n`, `run_handler n p` returns a value with `found = false`, runs no
handler (the world is unchanged) and its diagnostic contains `n`. -/
theorem run_handler_unregistered {σ : Type} (ops : List (String × HandlerFunc σ))
    (n : String) (hn : ∀ e ∈ ops, e.1 ≠ n) (p : String) (w : σ) :
    (((ActionHandler.new σ).register_all ops).run_handler n p w).1.1 = false ∧
    (((ActionHandler.new σ).register_all ops).run_handler n p w).2 = w ∧
    ∃ pre post : String,
      (((ActionHandler.new σ).register_all ops).run_handler n p w).1.2 = pre ++ n ++ post := by
  have hfind : map_find ((ActionHandler.new σ).register_all ops).action_handlers_ n = none := by
    rw [find_register_all_other ops _ n hn]
    rfl
  refine ⟨?_, ?_, "No handler for action: ", "", ?_⟩ <;>
    simp [ActionHandler.run_handler, hfind]

/-- Witness of C2: `erase` in the registry of `main`. -/
theorem run_handler_unregistered_witness :
    (∀ e ∈ [("reboot", handle_action_reboot), ("message", handle_action_message)],
      e.1 ≠ "erase") ∧
    ((((ActionHandler.new (List String)).register_all
        [("reboot", handle_action_reboot), ("message", handle_action_message)]).run_handler
        "erase" "p" []).1.1 = false ∧
     (((ActionHandler.new (List String)).register_all
        [("reboot", handle_action_reboot), ("message", handle_action_message)]).run_handler
        "erase" "p" []).2 = [] ∧
     ∃ pre post : String,
      (((ActionHandler.new (List String)).register_all
        [("reboot", handle_action_reboot), ("message", handle_action_message)]).run_handler
        "erase" "p" []).1.2 = pre ++ "erase" ++ post) :=
  ⟨by simp, run_handler_unregistered
    [("reboot", handle_action_reboot), ("message", handle_action_message)] "erase"
    (by simp) "p" []⟩

/-- C3: after `n` is registered with `h1` and then with `h2`, the registry is
the one in which only `h2` was registered, and `run_handler n p` returns
`found = true` with the value and the effect of `h2`: `h1` plays no part. -/
theorem reregistration_replaces {σ : Type} (m : ActionHandler σ) (n : String)
    (h1 h2 : HandlerFunc σ) (p : String) (w : σ) :
    (m.register_action_handler n h1).register_action_handler n h2
      = m.register_action_handler n h2 ∧
    ((m.register_action_handler n h1).register_action_handler n h2).run_handler n p w
      = ((true, (h2 p w).1), (h2 p w).2) := by
  have hsame : (m.register_action_handler n h1).register_action_handler n h2
      = m.register_action_handler n h2 := by
    simp [ActionHandler.register_action_handler, map_assign_assign]
  refine ⟨hsame, ?_⟩
  rw [hsame]
  simp [ActionHandler.run_handler, ActionHandler.register_action_handler, map_find_assign_same]

/-! ## Extraction of the action name -/

theorem last_index_none {xs : List Char} {c : Char} (h : last_index xs c = none) : c ∉ xs := by
  induction xs with
  | nil => simp
  | cons x rest ih =>
    cases hr : last_index rest c with
    | some j => simp [last_index, hr] at h
    | none =>
      simp only [last_index, hr] at h
      by_cases hx : x = c
      · simp [hx] at h
      · simp only [List.mem_cons, not_or]
        exact ⟨fun hc => hx hc.symm, ih hr⟩

theorem last_index_some {xs : List Char} {c : Char} {i : Nat} (h : last_index xs c = some i) :
    i < xs.length ∧ xs = xs.take i ++ c :: xs.drop (i + 1) ∧ c ∉ xs.drop (i + 1) := by
  induction xs generalizing i with
  | nil => simp [last_index] at h
  | cons x rest ih =>
    cases hr : last_index rest c with
    | some j =>
      simp only [last_index, hr, Option.some.injEq] at h
      subst h
      obtain ⟨h1, h2, h3⟩ := ih hr
      refine ⟨by simpa using h1, ?_, by simpa using h3⟩
      simp only [List.take_succ_cons, List.drop_succ_cons, List.cons_append]
      exact congrArg (List.cons x) h2
    | none =>
      simp only [last_index, hr] at h
      by_cases hx : x = c
      · simp only [hx, if_true, Option.some.injEq] at h
        subst h
        subst hx
        exact ⟨by simp, by simp, by simpa using last_index_none hr⟩
      · simp [hx] at h

theorem size_add_npos_one : size_add npos 1 = 0 := by
  simp [size_add, npos, SIZE_MAX]

theorem size_add_one_le (i : Nat) : size_add i 1 ≤ i + 1 := by
  unfold size_add
  exact Nat.mod_le _ _

theorem action_topic_of_total (t : String) : ∃ name, action_topic_of t = some name := by
  have hpos : size_add (find_last_of t '/') 1 ≤ t.length := by
    unfold find_last_of
    cases hr : last_index t.data '/' with
    | none => simp [size_add_npos_one]
    | some i =>
      have hi := (last_index_some hr).1
      have := size_add_one_le i
      simp only [String.length]
      omega
  refine ⟨String.mk (t.data.drop (size_add (find_last_of t '/') 1)), ?_⟩
  simp [action_topic_of, substr, Nat.not_lt.mpr hpos]

/-- C7: the action name extracted from a topic is its final segment: it has no
`/`, and either the topic has no `/` and is the name itself, or the topic is
some text, a `/`, and the name. -/
theorem action_topic_is_final_segment (t : String) (hlen : t.length < 2 ^ 64) :
    ∃ name, action_topic_of t = some name ∧ '/' ∉ name.data ∧
      (('/' ∉ t.data ∧ name = t) ∨ ∃ pre : String, t = pre ++ "/" ++ name) := by
  unfold action_topic_of find_last_of
  cases hr : last_index t.data '/' with
  | none =>
    have hno := last_index_none hr
    refine ⟨t, ?_, hno, Or.inl ⟨hno, rfl⟩⟩
    simp [size_add_npos_one, substr]
  | some i =>
    obtain ⟨h1, h2, h3⟩ := last_index_some hr
    have hlen2 : t.data.length < 2 ^ 64 := hlen
    have hpos : size_add i 1 = i + 1 := by
      unfold size_add
      exact Nat.mod_eq_of_lt (by omega)
    refine ⟨String.mk (t.data.drop (i + 1)), ?_, h3, Or.inr ⟨String.mk (t.data.take i), ?_⟩⟩
    · have hle : ¬ (i + 1 > t.length) := by
        simp only [String.length]
        omega
      simp [hpos, substr, hle]
    · apply String.ext
      simp only [String.data_append]
      simpa using h2

/-- Witness of C7: the topic `action/device/reboot` yields `reboot`. -/
theorem action_topic_is_final_segment_witness :
    "action/device/reboot".length < 2 ^ 64 ∧
    (∃ name, action_topic_of "action/device/reboot" = some name ∧ '/' ∉ name.data ∧
      (('/' ∉ "action/device/reboot".data ∧ name = "action/device/reboot") ∨
        ∃ pre : String, "action/device/reboot" = pre ++ "/" ++ name)) ∧
    action_topic_of "action/device/reboot" = some "reboot" ∧
    action_topic_of "action/" = some "" :=
  ⟨by decide, action_topic_is_final_segment "action/device/reboot" (by decide),
    by decide, by decide⟩

/-! ## The message lambda -/

theorem calls_single (rc : Stub) (s : Session) (c : ClientCall) :
    MqttClient.calls rc s [c] = MqttClient.call rc s c := rfl

theorem handle_request_calls {σ : Type} (serialize : ActionAck → String)
    (action_handler : ActionHandler σ) (req : ActionRequest) (a : String)
    (ha : action_topic_of req.topic = some a) (w : σ) :
    (handle_request serialize action_handler req w).1 =
      if req.ack_topic = "" then []
      else [ClientCall.publish ("action/ack/" ++ req.ack_topic)
        (serialize (build_ack a (action_handler.run_handler a req.payload w).1.1
          (action_handler.run_handler a req.payload w).1.2)) 1] := by
  by_cases hack : req.ack_topic = ""
  · have he : "".isEmpty = true := (String.isEmpty_iff _).mpr rfl
    simp [handle_request, ha, hack, he]
  · have hne : req.ack_topic.isEmpty = false := by
      cases hb : req.ack_topic.isEmpty with
      | false => rfl
      | true => exact absurd ((String.isEmpty_iff _).mp hb) hack
    simp [handle_request, ha, hack, hne]

/-- C4, evaluated on the request of the spec (`action/device/reboot`, ack topic
`dev1`, `reboot` returning `Rebooted successfully`): the lambda publishes on
`action/ack/dev1` with QoS 1, `success = true` and `error = ""`, but the field
`ack` holds the handler's output and the field `result` is left empty, because
`set_allocated_ack` overwrites what `set_ack` stored. -/
theorem ack_fields_for_reboot (serialize : ActionAck → String) :
    handle_request serialize main_action_handler ⟨"action/device/reboot", "dev1", "p"⟩ []
      = ([ClientCall.publish "action/ack/dev1"
            (serialize ⟨"Rebooted successfully", true, "", ""⟩) 1],
         ["[Handler] Reboot action triggered with payload: p"]) ∧
    build_ack "reboot" true "Rebooted successfully"
      = ⟨"Rebooted successfully", true, "", ""⟩ ∧
    build_ack "reboot" true "Rebooted successfully"
      ≠ ⟨"reboot", true, "", "Rebooted successfully"⟩ := by
  have hname : action_topic_of "action/device/reboot" = some "reboot" := by decide
  have hrun : main_action_handler.run_handler "reboot" "p" []
      = ((true, "Rebooted successfully"),
         ["[Handler] Reboot action triggered with payload: p"]) := by
    simp [main_action_handler, ActionHandler.run_handler, ActionHandler.new,
      ActionHandler.register_action_handler, map_assign, map_find, handle_action_reboot]
  have hempty : "dev1".isEmpty = false := by decide
  refine ⟨?_, rfl, by decide⟩
  simp [handle_request, hname, hrun, hempty, build_ack, ActionAck.new, ActionAck.set_ack,
    ActionAck.set_success, ActionAck.set_error, ActionAck.set_allocated_ack]

/-- C5: for a payload that parses as a request, the lambda makes exactly one
publish call, on `action/ack/` followed by the ack topic with QoS 1, when the
ack topic is non-empty, and no call at all when it is empty, whatever the
registry holds; on a connected session that one call is one transport
publish, and with an empty ack topic the session and its trace are unchanged. -/
theorem ack_published_iff_ack_topic {σ : Type} (rc : Stub)
    (parse : String → Option ActionRequest) (serialize : ActionAck → String)
    (action_handler : ActionHandler σ) (topic payload : String) (req : ActionRequest)
    (hparse : parse payload = some req) (s : Session) (w : σ) :
    (req.ack_topic ≠ "" → ∃ ack_payload,
      (on_message_lambda parse serialize action_handler topic payload w).1
        = [ClientCall.publish ("action/ack/" ++ req.ack_topic) ack_payload 1] ∧
      (s.client.mosq_ = true → s.client.connected_ = true →
        (on_message rc parse serialize action_handler topic payload s w).1.trace
          = s.trace ++ [TransportCall.mosquitto_publish ("action/ack/" ++ req.ack_topic)
              ack_payload.utf8ByteSize ack_payload 1 false])) ∧
    (req.ack_topic = "" →
      (on_message_lambda parse serialize action_handler topic payload w).1 = [] ∧
      (on_message rc parse serialize action_handler topic payload s w).1 = s) := by
  obtain ⟨a, ha⟩ := action_topic_of_total req.topic
  have hcalls := handle_request_calls serialize action_handler req a ha w
  constructor
  · intro hack
    refine ⟨serialize (build_ack a (action_handler.run_handler a req.payload w).1.1
      (action_handler.run_handler a req.payload w).1.2), ?_, ?_⟩
    · simp only [on_message_lambda, hparse, hcalls, if_neg hack]
    · intro hm hc
      simp only [on_message, on_message_lambda, hparse, hcalls, if_neg hack, calls_single]
      by_cases hrc : rc s.trace (TransportCall.mosquitto_publish ("action/ack/" ++ req.ack_topic)
          (serialize (build_ack a (action_handler.run_handler a req.payload w).1.1
            (action_handler.run_handler a req.payload w).1.2)).utf8ByteSize
          (serialize (build_ack a (action_handler.run_handler a req.payload w).1.1
            (action_handler.run_handler a req.payload w).1.2)) 1 false) = MOSQ_ERR_SUCCESS
      · simp [MqttClient.call, MqttClient.publish, hm, hc, hrc, Session.emit]
      · simp [MqttClient.call, MqttClient.publish, hm, hc, hrc, Session.emit]
  · intro hack
    have h1 : (on_message_lambda parse serialize action_handler topic payload w).1 = [] := by
      simp only [on_message_lambda, hparse, hcalls, if_pos hack]
    refine ⟨h1, ?_⟩
    simp only [on_message, h1, MqttClient.calls]

/-- Witness of C5: the request of the spec on a connected session. -/
theorem ack_published_iff_ack_topic_witness :
    (fun _ => some ⟨"action/device/reboot", "dev1", "p"⟩ : String → Option ActionRequest) "x"
      = some ⟨"action/device/reboot", "dev1", "p"⟩ ∧
    ("dev1" ≠ "" → ∃ ack_payload,
      (on_message_lambda (fun _ => some ⟨"action/device/reboot", "dev1", "p"⟩)
        (fun m => m.ack) main_action_handler "action/device/reboot" "x" []).1
        = [ClientCall.publish ("action/ack/" ++ "dev1") ack_payload 1] ∧
      (true = true → true = true →
        (on_message (fun _ _ => 0) (fun _ => some ⟨"action/device/reboot", "dev1", "p"⟩)
          (fun m => m.ack) main_action_handler "action/device/reboot" "x"
          ⟨⟨true, "", "", "", "", "", 0, true, none, none, none⟩, []⟩ []).1.trace
          = [] ++ [TransportCall.mosquitto_publish ("action/ack/" ++ "dev1")
              ack_payload.utf8ByteSize ack_payload 1 false])) ∧
    ("dev1" = "" →
      (on_message_lambda (fun _ => some ⟨"action/device/reboot", "dev1", "p"⟩)
        (fun m => m.ack) main_action_handler "action/device/reboot" "x" []).1 = [] ∧
      (on_message (fun _ _ => 0) (fun _ => some ⟨"action/device/reboot", "dev1", "p"⟩)
          (fun m => m.ack) main_action_handler "action/device/reboot" "x"
          ⟨⟨true, "", "", "", "", "", 0, true, none, none, none⟩, []⟩ []).1
        = ⟨⟨true, "", "", "", "", "", 0, true, none, none, none⟩, []⟩) :=
  ⟨rfl, ack_published_iff_ack_topic (fun _ _ => 0)
    (fun _ => some ⟨"action/device/reboot", "dev1", "p"⟩) (fun m => m.ack) main_action_handler
    "action/device/reboot" "x" ⟨"action/device/reboot", "dev1", "p"⟩ rfl
    ⟨⟨true, "", "", "", "", "", 0, true, none, none, none⟩, []⟩ []⟩

/-- C6: for a payload that parses as a request whose action name `a` was never
registered and whose ack topic is non-empty, the one publish call of the lambda
carries an acknowledgment with `success = false` and
`error = "No handler found"`. -/
theorem ack_for_unregistered_action {σ : Type} (parse : String → Option ActionRequest)
    (serialize : ActionAck → String) (ops : List (String × HandlerFunc σ))
    (topic payload : String) (req : ActionRequest) (a : String) (w : σ)
    (hparse : parse payload = some req) (hname : action_topic_of req.topic = some a)
    (hunreg : ∀ e ∈ ops, e.1 ≠ a) (hack : req.ack_topic ≠ "") :
    (on_message_lambda parse serialize ((ActionHandler.new σ).register_all ops)
        topic payload w).1
      = [ClientCall.publish ("action/ack/" ++ req.ack_topic)
          (serialize (build_ack a false ("No handler for action: " ++ a))) 1] ∧
    (build_ack a false ("No handler for action: " ++ a)).success = false ∧
    (build_ack a false ("No handler for action: " ++ a)).error = "No handler found" := by
  have hfind : map_find ((ActionHandler.new σ).register_all ops).action_handlers_ a = none := by
    rw [find_register_all_other ops _ a hunreg]
    rfl
  have hrun : ((ActionHandler.new σ).register_all ops).run_handler a req.payload w
      = ((false, "No handler for action: " ++ a), w) := by
    simp [ActionHandler.run_handler, hfind]
  refine ⟨?_, rfl, rfl⟩
  simp only [on_message_lambda, hparse, handle_request_calls serialize _ req a hname w,
    if_neg hack, hrun]

/-- Witness of C6: the unregistered action `erase` in the registry of `main`. -/
theorem ack_for_unregistered_action_witness :
    (fun _ => some ⟨"action/device/erase", "dev1", "p"⟩ : String → Option ActionRequest) "x"
      = some ⟨"action/device/erase", "dev1", "p"⟩ ∧
    action_topic_of "action/device/erase" = some "erase" ∧
    (∀ e ∈ [("reboot", handle_action_reboot), ("message", handle_action_message)],
      e.1 ≠ "erase") ∧
    "dev1" ≠ "" ∧
    ((on_message_lambda (fun _ => some ⟨"action/device/erase", "dev1", "p"⟩) (fun m => m.error)
        ((ActionHandler.new (List String)).register_all
          [("reboot", handle_action_reboot), ("message", handle_action_message)])
        "action/device/erase" "x" []).1
      = [ClientCall.publish ("action/ack/" ++ "dev1")
          ((fun m => m.error) (build_ack "erase" false ("No handler for action: " ++ "erase")))
          1] ∧
    (build_ack "erase" false ("No handler for action: " ++ "erase")).success = false ∧
    (build_ack "erase" false ("No handler for action: " ++ "erase")).error
      = "No handler found") :=
  ⟨rfl, by decide, by simp, by decide,
    ack_for_unregistered_action (fun _ => some ⟨"action/device/erase", "dev1", "p"⟩)
      (fun m => m.error) [("reboot", handle_action_reboot), ("message", handle_action_message)]
      "action/device/erase" "x" ⟨"action/device/erase", "dev1", "p"⟩ "erase" []
      rfl (by decide) (by simp) (by decide)⟩

/-! ## The session -/

/-- C8: on a session with `isConnected() == false`, `publish` and
`publishRetained` return `false` and leave the session and the trace of
transport calls as they were. -/
theorem publish_when_disconnected (rc : Stub) (s : Session) (topic message : String)
    (qos : Int) (h : MqttClient.isConnected s = false) :
    MqttClient.publish rc s topic message qos = (false, s) ∧
    MqttClient.publishRetained rc s topic message qos = (false, s) := by
  simp only [MqttClient.isConnected] at h
  simp [MqttClient.publish, MqttClient.publishRetained, h]

/-- Witness of C8: a freshly constructed session. -/
theorem publish_when_disconnected_witness :
    MqttClient.isConnected (MqttClient.new (fun _ _ => 0)) = false ∧
    (MqttClient.publish (fun _ _ => 0) (MqttClient.new (fun _ _ => 0)) "sensor/all" "m" 0
        = (false, MqttClient.new (fun _ _ => 0)) ∧
     MqttClient.publishRetained (fun _ _ => 0) (MqttClient.new (fun _ _ => 0)) "sensor/all" "m" 0
        = (false, MqttClient.new (fun _ _ => 0))) :=
  ⟨rfl, publish_when_disconnected (fun _ _ => 0) (MqttClient.new (fun _ _ => 0))
    "sensor/all" "m" 0 rfl⟩

theorem publish_client (rc : Stub) (s : Session) (topic message : String) (qos : Int) :
    (MqttClient.publish rc s topic message qos).2.client = s.client := by
  unfold MqttClient.publish
  split
  · rfl
  · dsimp only
    split <;> rfl

theorem calls_publishes_client (rc : Stub) (l : List ClientCall) (s : Session)
    (hl : ∀ c ∈ l, c.is_publish = true) : (MqttClient.calls rc s l).client = s.client := by
  induction l generalizing s with
  | nil => rfl
  | cons c rest ih =>
    have hc := hl c (List.mem_cons_self _ _)
    have hrest : ∀ d ∈ rest, d.is_publish = true := fun d hd => hl d (List.mem_cons_of_mem _ hd)
    simp only [MqttClient.calls]
    rw [ih _ hrest]
    cases c with
    | publish t m q => exact publish_client rc s t m q
    | publishRetained t m q => simp [ClientCall.is_publish] at hc
    | disconnect => simp [ClientCall.is_publish] at hc
    | loopStop => simp [ClientCall.is_publish] at hc
    | subscribe t q => simp [ClientCall.is_publish] at hc

theorem calls_publishes_disconnected (rc : Stub) (l : List ClientCall) (s : Session)
    (hl : ∀ c ∈ l, c.is_publish = true) (h : s.client.connected_ = false) :
    MqttClient.calls rc s l = s := by
  induction l with
  | nil => rfl
  | cons c rest ih =>
    have hc := hl c (List.mem_cons_self _ _)
    have hrest : ∀ d ∈ rest, d.is_publish = true := fun d hd => hl d (List.mem_cons_of_mem _ hd)
    cases c with
    | publish t m q =>
      have hp : MqttClient.call rc s (.publish t m q) = s := by
        simp [MqttClient.call, MqttClient.publish, h]
      simp only [MqttClient.calls, hp]
      exact ih hrest
    | publishRetained t m q => simp [ClientCall.is_publish] at hc
    | disconnect => simp [ClientCall.is_publish] at hc
    | loopStop => simp [ClientCall.is_publish] at hc
    | subscribe t q => simp [ClientCall.is_publish] at hc

theorem calls_append (rc : Stub) (l1 l2 : List ClientCall) (s : Session) :
    MqttClient.calls rc s (l1 ++ l2) = MqttClient.calls rc (MqttClient.calls rc s l1) l2 := by
  induction l1 generalizing s with
  | nil => rfl
  | cons c rest ih => exact ih (MqttClient.call rc s c)

theorem loop_publishes_are_publishes (a t c g : String) :
    ∀ x ∈ loop_publishes a t c g, x.is_publish = true := by
  intro x hx
  simp only [loop_publishes, List.mem_cons, List.mem_singleton, List.not_mem_nil,
    or_false] at hx
  rcases hx with h | h | h | h <;> subst h <;> rfl

/-- C9, evaluated on every run in which the signal arrives on a connected
session during the simulation loop: after the signal the transport sees the
disconnect issued by `signalHandler` and the stop of the loop, and nothing
else; the retained offline status of the cleanup finds the session already
disconnected and is never transmitted. -/
theorem shutdown_offline_status_not_transmitted (rc : Stub) (c : MqttClient)
    (tr : List TransportCall) (k : Nat)
    (all_data_pb temp_pb compass_pb gps_pb offline_status : String) :
    (shutdown_on_signal rc (running_main c tr) k all_data_pb temp_pb compass_pb gps_pb
        offline_status).mqtt_client.trace
      = (MqttClient.calls rc (running_main c tr).mqtt_client
          ((loop_publishes all_data_pb temp_pb compass_pb gps_pb).take k)).trace
        ++ [TransportCall.mosquitto_disconnect, TransportCall.mosquitto_loop_stop true] ∧
    MqttClient.publishRetained rc (signalHandler (running_main c tr)).mqtt_client
        "sensor/status" offline_status 1
      = (false, (signalHandler (running_main c tr)).mqtt_client) := by
  constructor
  · have htake : ∀ x ∈ (loop_publishes all_data_pb temp_pb compass_pb gps_pb).take k,
        x.is_publish = true :=
      fun x hx => loop_publishes_are_publishes _ _ _ _ x (List.mem_of_mem_take hx)
    have hdrop : ∀ x ∈ (loop_publishes all_data_pb temp_pb compass_pb gps_pb).drop k,
        x.is_publish = true :=
      fun x hx => loop_publishes_are_publishes _ _ _ _ x (List.mem_of_mem_drop hx)
    have hclient := calls_publishes_client rc _ (running_main c tr).mqtt_client htake
    generalize hs0 : MqttClient.calls rc (running_main c tr).mqtt_client
      ((loop_publishes all_data_pb temp_pb compass_pb gps_pb).take k) = s0 at hclient
    have hm : s0.client.mosq_ = true := by rw [hclient]; rfl
    have hc : s0.client.connected_ = true := by rw [hclient]; rfl
    have hdis : MqttClient.disconnect s0
        = { client := { s0.client with connected_ := false },
            trace := s0.trace ++ [TransportCall.mosquitto_disconnect] } := by
      simp [MqttClient.disconnect, hm, hc, Session.emit]
    simp only [shutdown_on_signal, signalHandler, running_main, hs0] at *
    simp only [if_true, hdis, calls_append]
    rw [calls_publishes_disconnected rc _ _ hdrop rfl]
    simp [cleanup, MqttClient.calls, MqttClient.call, MqttClient.publishRetained,
      MqttClient.disconnect, MqttClient.loopStop, Session.emit, hm]
  · simp [signalHandler, running_main, MqttClient.disconnect, MqttClient.publishRetained,
      Session.emit]

/-- C10 as stated fails: a connected session whose instance could not be
recreated by `setClientId` is still connected after `disconnect()`. -/
theorem disconnect_without_instance_stays_connected :
    MqttClient.isConnected (MqttClient.disconnect
      (MqttClient.setClientId (stub_no_instance "sensor_simulator")
        (MqttClient.onConnect (stub_no_instance "sensor_simulator")
          (MqttClient.new (stub_no_instance "sensor_simulator")) 0) "sensor_simulator")) = true ∧
    ¬ ∀ s : Session, MqttClient.isConnected (MqttClient.disconnect s) = false := by
  have h : MqttClient.isConnected (MqttClient.disconnect
      (MqttClient.setClientId (stub_no_instance "sensor_simulator")
        (MqttClient.onConnect (stub_no_instance "sensor_simulator")
          (MqttClient.new (stub_no_instance "sensor_simulator")) 0) "sensor_simulator")) = true := by
    decide
  refine ⟨h, fun hall => ?_⟩
  rw [hall] at h
  exact Bool.noConfusion h

/-- C10, amended: after `disconnect()` on a session that holds a transport
instance or is already disconnected, `isConnected()` is false; on every
session a second `disconnect()` changes neither the state nor the trace of
transport calls; and `disconnect()` on a session that is not connected
changes nothing and makes no transport call. -/
theorem disconnect_idempotent (s t u : Session)
    (hs : s.client.mosq_ = true ∨ s.client.connected_ = false)
    (hu : MqttClient.isConnected u = false) :
    MqttClient.isConnected (MqttClient.disconnect s) = false ∧
    MqttClient.disconnect (MqttClient.disconnect t) = MqttClient.disconnect t ∧
    MqttClient.disconnect u = u := by
  refine ⟨?_, ?_, ?_⟩
  · cases hm : s.client.mosq_ <;> cases hc : s.client.connected_ <;>
      simp_all [MqttClient.isConnected, MqttClient.disconnect, Session.emit]
  · cases hm : t.client.mosq_ <;> cases hc : t.client.connected_ <;>
      simp [MqttClient.disconnect, Session.emit, hm, hc]
  · simp only [MqttClient.isConnected] at hu
    simp [MqttClient.disconnect, hu]

/-- Witness of C10: a connected session with an instance, the session of the
counterexample, and a freshly constructed session. -/
theorem disconnect_idempotent_witness :
    ((running_main (MqttClient.new (fun _ _ => 0)).client []).mqtt_client.client.mosq_ = true ∨
      (running_main (MqttClient.new (fun _ _ => 0)).client []).mqtt_client.client.connected_
        = false) ∧
    MqttClient.isConnected (MqttClient.new (fun _ _ => 0)) = false ∧
    (MqttClient.isConnected (MqttClient.disconnect
        (running_main (MqttClient.new (fun _ _ => 0)).client []).mqtt_client) = false ∧
     MqttClient.disconnect (MqttClient.disconnect
        (MqttClient.setClientId (stub_no_instance "sensor_simulator")
          (MqttClient.onConnect (stub_no_instance "sensor_simulator")
            (MqttClient.new (stub_no_instance "sensor_simulator")) 0) "sensor_simulator"))
       = MqttClient.disconnect
        (MqttClient.setClientId (stub_no_instance "sensor_simulator")
          (MqttClient.onConnect (stub_no_instance "sensor_simulator")
            (MqttClient.new (stub_no_instance "sensor_simulator")) 0) "sensor_simulator") ∧
     MqttClient.disconnect (MqttClient.new (fun _ _ => 0)) = MqttClient.new (fun _ _ => 0)) :=
  ⟨Or.inl rfl, rfl,
    disconnect_idempotent (running_main (MqttClient.new (fun _ _ => 0)).client []).mqtt_client
      (MqttClient.setClientId (stub_no_instance "sensor_simulator")
        (MqttClient.onConnect (stub_no_instance "sensor_simulator")
          (MqttClient.new (stub_no_instance "sensor_simulator")) 0) "sensor_simulator")
      (MqttClient.new (fun _ _ => 0)) (Or.inl rfl) rfl⟩

/-! ## Connecting -/

theorem connect_client (rc : Stub) (s : Session) (broker : String) (port keepalive : Int) :
    (MqttClient.connect rc s broker port keepalive).2.client = s.client := by
  unfold MqttClient.connect
  split
  · rfl
  · dsimp only
    split <;> simp only [Session.emit] <;> (repeat' split) <;> rfl

/-- C11: `connect` leaves the session object, and with it the connected flag,
as it was, whether it returns true or false; on a freshly constructed session
`isConnected()` is false after `connect` and becomes true when the connect
callback is delivered with code 0. -/
theorem connect_keeps_connected_flag (rc : Stub) (s : Session) (broker : String)
    (port keepalive : Int) :
    MqttClient.isConnected (MqttClient.connect rc s broker port keepalive).2
      = MqttClient.isConnected s ∧
    (MqttClient.connect rc s broker port keepalive).2.client = s.client ∧
    MqttClient.isConnected (MqttClient.connect rc (MqttClient.new rc) broker port keepalive).2
      = false ∧
    MqttClient.isConnected (MqttClient.onConnect rc
      (MqttClient.connect rc (MqttClient.new rc) broker port keepalive).2 0) = true := by
  have h1 := connect_client rc s broker port keepalive
  have h2 := connect_client rc (MqttClient.new rc) broker port keepalive
  refine ⟨?_, h1, ?_, ?_⟩
  · simp only [MqttClient.isConnected, h1]
  · simp only [MqttClient.isConnected, h2]
    rfl
  · have hcb : (MqttClient.connect rc (MqttClient.new rc) broker port
        keepalive).2.client.on_connect_callback_ = none := by
      rw [h2]
      rfl
    simp [MqttClient.onConnect, MqttClient.isConnected, hcb]

/-- C13: for a payload that does not parse as a request the lambda makes no
call on the session and returns the world as it was, whatever the registry
holds, so no handler runs; the session and the trace of transport calls are
unchanged. -/
theorem malformed_request_dropped {σ : Type} (rc : Stub)
    (parse : String → Option ActionRequest) (serialize : ActionAck → String)
    (action_handler : ActionHandler σ) (topic payload : String)
    (hparse : parse payload = none) (s : Session) (w : σ) :
    on_message_lambda parse serialize action_handler topic payload w = ([], w) ∧
    on_message rc parse serialize action_handler topic payload s w = (s, w) := by
  have h : on_message_lambda parse serialize action_handler topic payload w = ([], w) := by
    simp only [on_message_lambda, hparse]
  exact ⟨h, by simp only [on_message, h, MqttClient.calls]⟩

/-- Witness of C13: a parser that rejects the payload, on a connected session
with the registry of `main`. -/
theorem malformed_request_dropped_witness :
    (fun _ => none : String → Option ActionRequest) "garbage" = none ∧
    (on_message_lambda (fun _ => none) (fun m => m.ack) main_action_handler
        "action/device/reboot" "garbage" [] = ([], []) ∧
     on_message (fun _ _ => 0) (fun _ => none) (fun m => m.ack) main_action_handler
        "action/device/reboot" "garbage"
        (running_main (MqttClient.new (fun _ _ => 0)).client []).mqtt_client []
       = ((running_main (MqttClient.new (fun _ _ => 0)).client []).mqtt_client, [])) :=
  ⟨rfl, malformed_request_dropped (fun _ _ => 0) (fun _ => none) (fun m => m.ack)
    main_action_handler "action/device/reboot" "garbage" rfl
    (running_main (MqttClient.new (fun _ _ => 0)).client []).mqtt_client []⟩

/-! ## The wait for the connection -/

theorem wait_loop_spec (isConnected : Nat → Bool) (n : Nat) :
    ∀ retry_count reads : Nat, retry_count + n = 10 →
      retry_count ≤ (wait_loop isConnected retry_count reads).1 ∧
      (wait_loop isConnected retry_count reads).1 ≤ 10 ∧
      (wait_loop isConnected retry_count reads).2
        = reads + ((wait_loop isConnected retry_count reads).1 - retry_count) + 1 ∧
      (∀ j, j < (wait_loop isConnected retry_count reads).1 - retry_count →
        isConnected (reads + j) = false) ∧
      (isConnected (reads + ((wait_loop isConnected retry_count reads).1 - retry_count)) = true ∨
        (wait_loop isConnected retry_count reads).1 = 10) := by
  induction n with
  | zero =>
    intro retry_count reads hn
    have h10 : retry_count = 10 := by omega
    subst h10
    have hres : wait_loop isConnected 10 reads = (10, reads + 1) := by
      rw [wait_loop]
      simp
    rw [hres]
    simp
  | succ n ih =>
    intro retry_count reads hn
    have hlt : retry_count < 10 := by omega
    cases hobs : isConnected reads with
    | true =>
      have hres : wait_loop isConnected retry_count reads = (retry_count, reads + 1) := by
        rw [wait_loop]
        simp [hobs]
      rw [hres]
      simp only [Nat.sub_self, Nat.add_zero, hobs, true_or, and_true, le_refl, true_and]
      exact ⟨by omega, fun j hj => absurd hj (Nat.not_lt_zero j)⟩
    | false =>
      have hres : wait_loop isConnected retry_count reads
          = wait_loop isConnected (retry_count + 1) (reads + 1) := by
        rw [wait_loop]
        simp [hobs, hlt]
      obtain ⟨h1, h2, h3, h4, h5⟩ := ih (retry_count + 1) (reads + 1) (by omega)
      rw [hres]
      refine ⟨by omega, h2, by omega, ?_, ?_⟩
      · intro j hj
        cases j with
        | zero => exact hobs
        | succ j =>
          have := h4 j (by omega)
          rwa [show reads + 1 + j = reads + (j + 1) by omega] at this
      · rcases h5 with h5 | h5
        · left
          rwa [show reads + 1 + ((wait_loop isConnected (retry_count + 1) (reads + 1)).1
              - (retry_count + 1))
            = reads + ((wait_loop isConnected (retry_count + 1) (reads + 1)).1 - retry_count)
            by omega] at h5
        · right
          exact h5

theorem wait_for_connection_waits (isConnected : Nat → Bool) :
    (wait_for_connection isConnected).waits = (wait_loop isConnected 0 0).1 := by
  unfold wait_for_connection
  dsimp only
  split <;> rfl

theorem wait_for_connection_exit (isConnected : Nat → Bool) :
    (wait_for_connection isConnected).exit_code
      = if isConnected ((wait_loop isConnected 0 0).1 + 1) = false then some 1 else none := by
  have h3 := (wait_loop_spec isConnected 10 0 0 rfl).2.2.1
  have hreads : (wait_loop isConnected 0 0).2 = (wait_loop isConnected 0 0).1 + 1 := by
    simpa using h3
  unfold wait_for_connection
  dsimp only
  rw [hreads]
  cases isConnected ((wait_loop isConnected 0 0).1 + 1) <;> simp

/-- C14 as stated fails: when `isConnected()` is true at the first test of the
loop and false at the test after the loop, the startup fails with exit code 1
although no wait was made and the budget is not exhausted. -/
theorem wait_fails_within_budget :
    (wait_for_connection (fun i => decide (i = 0))).exit_code = some 1 ∧
    (wait_for_connection (fun i => decide (i = 0))).waits = 0 := by
  have hres : wait_loop (fun i => decide (i = 0)) 0 0 = (0, 1) := by
    rw [wait_loop]
    simp
  constructor
  · rw [wait_for_connection_exit, hres]
    simp
  · rw [wait_for_connection_waits, hres]

/-- C14, amended: for every behaviour of `isConnected()` the loop makes at most
10 waits, waits only while `isConnected()` is observed false and stops at the
first observation of true or after the tenth wait; the startup fails with exit
code 1 exactly when the test after the loop reads false, and goes on otherwise.
When `isConnected()` never goes back from true to false, it fails exactly when
`isConnected()` is still false after the ten waits. -/
theorem wait_for_connection_budget (isConnected : Nat → Bool) :
    (wait_for_connection isConnected).waits ≤ 10 ∧
    (∀ i, i < (wait_for_connection isConnected).waits → isConnected i = false) ∧
    (isConnected (wait_for_connection isConnected).waits = true ∨
      (wait_for_connection isConnected).waits = 10) ∧
    ((wait_for_connection isConnected).exit_code = some 1 ↔
      isConnected ((wait_for_connection isConnected).waits + 1) = false) ∧
    ((wait_for_connection isConnected).exit_code = none ↔
      isConnected ((wait_for_connection isConnected).waits + 1) = true) ∧
    ((∀ i, isConnected i = true → isConnected (i + 1) = true) →
      ((wait_for_connection isConnected).exit_code = some 1 ↔
        ∀ i, i ≤ 11 → isConnected i = false)) := by
  obtain ⟨_, h2, _, h4, h5⟩ := wait_loop_spec isConnected 10 0 0 rfl
  rw [wait_for_connection_waits, wait_for_connection_exit]
  generalize (wait_loop isConnected 0 0).1 = w at h2 h4 h5
  simp only [Nat.sub_zero, Nat.zero_add] at h4 h5
  have hexit : ((if isConnected (w + 1) = false then some (1 : Int) else none) = some 1 ↔
      isConnected (w + 1) = false) := by
    cases isConnected (w + 1) <;> simp
  refine ⟨h2, h4, h5, hexit, ?_, ?_⟩
  · cases isConnected (w + 1) <;> simp
  · intro hmono
    rw [hexit]
    have hdown : ∀ k i, isConnected (i + k) = false → isConnected i = false := by
      intro k
      induction k with
      | zero => intro i h; exact h
      | succ k ih =>
        intro i h
        apply ih
        cases hk : isConnected (i + k) with
        | false => rfl
        | true =>
          have := hmono (i + k) hk
          rw [show i + k + 1 = i + (k + 1) by omega] at this
          rw [this] at h
          exact absurd h (by simp)
    constructor
    · intro hfalse
      have hw : isConnected w = false := hdown 1 w hfalse
      have hw10 : w = 10 := by
        rcases h5 with h5 | h5
        · rw [hw] at h5
          exact absurd h5 (by simp)
        · exact h5
      subst hw10
      intro i hi
      exact hdown (11 - i) i (by rwa [show i + (11 - i) = 10 + 1 by omega])
    · intro hall
      have hw10 : w = 10 := by
        rcases h5 with h5 | h5
        · rw [hall w (by omega)] at h5
          exact absurd h5 (by simp)
        · exact h5
      subst hw10
      exact hall 11 (by omega)

/-- Witness of C14: the connection is confirmed before the fourth test and
stays confirmed. -/
theorem wait_for_connection_budget_witness :
    (∀ i, (fun i => decide (3 ≤ i)) i = true → (fun i => decide (3 ≤ i)) (i + 1) = true) ∧
    ((wait_for_connection (fun i => decide (3 ≤ i))).exit_code = some 1 ↔
      ∀ i, i ≤ 11 → (fun i => decide (3 ≤ i)) i = false) ∧
    (wait_for_connection (fun i => decide (3 ≤ i))).waits ≤ 10 :=
  ⟨fun i h => by simp only [decide_eq_true_eq] at h ⊢; omega,
    (wait_for_connection_budget (fun i => decide (3 ≤ i))).2.2.2.2.2
      (fun i h => by simp only [decide_eq_true_eq] at h ⊢; omega),
    (wait_for_connection_budget (fun i => decide (3 ≤ i))).1⟩

/-! ## Credentials and the connection callbacks -/

/-- C16, evaluated on the session `main` configures when no user name is given
(client id `sensor_simulator`, empty user name and password): `connect` calls
the user name and password setter of the transport, with empty strings, before
the transport connect, because the setter is also called under the test that
the client id is non-empty. -/
theorem connect_sets_credentials_without_username (offline_status online_status : String) :
    (MqttClient.connect (fun _ _ => 0)
        (main_configure (fun _ _ => 0) "sensor_simulator" "" "" offline_status online_status)
        "localhost" 1883 60).2.trace
      = [ .mosquitto_new none, .mosquitto_destroy, .mosquitto_new (some "sensor_simulator"),
          .mosquitto_username_pw_set "" "",
          .mosquitto_will_set "sensor/status" offline_status.utf8ByteSize offline_status 1 false,
          .mosquitto_connect "localhost" 1883 60 ] ∧
    (main_configure (fun _ _ => 0) "sensor_simulator" "" "" offline_status
      online_status).client.username_ = "" := by
  have h1 : "sensor_simulator".isEmpty = false := by decide
  have h2 : "".isEmpty = true := by decide
  have h3 : "sensor/status".isEmpty = false := by decide
  simp [MqttClient.connect, main_configure, MqttClient.new, MqttClient.setClientId,
    MqttClient.setWill, MqttClient.setOnConnect, MqttClient.setOnDisconnect,
    MqttClient.setOnPublish, Session.emit, MOSQ_ERR_SUCCESS, h1, h2, h3]

/-- C18: on a session that holds an instance and has the connect lambda of
`main` registered, a connect callback with code 0 makes the transport see the
retained publish of the online status on `sensor/status` with QoS 1 and then
the subscription to `action/#`, whatever the connected flag was before; with a
nonzero code the lambda makes no call and the transport sees nothing. -/
theorem online_status_reaches_transport (rc : Stub) (s : Session) (online_status : String)
    (code : Int) (hm : s.client.mosq_ = true)
    (hcb : s.client.on_connect_callback_ = some (on_connect_lambda true online_status)) :
    on_connect_lambda true online_status 0
      = [ .publishRetained "sensor/status" online_status 1, .subscribe "action/#" 1 ] ∧
    (MqttClient.onConnect rc s 0).trace
      = s.trace ++ [ .mosquitto_publish "sensor/status" online_status.utf8ByteSize
            online_status 1 true, .mosquitto_subscribe "action/#" 1 ] ∧
    (code ≠ 0 → on_connect_lambda true online_status code = [] ∧
      (MqttClient.onConnect rc s code).trace = s.trace) := by
  refine ⟨rfl, ?_, ?_⟩
  · by_cases hr : rc s.trace (.mosquitto_publish "sensor/status" online_status.utf8ByteSize
        online_status 1 true) = MOSQ_ERR_SUCCESS
    · simp [MqttClient.onConnect, hcb, on_connect_lambda, MqttClient.calls, MqttClient.call,
        MqttClient.publishRetained, MqttClient.subscribe, Session.emit, hm, hr]
    · simp [MqttClient.onConnect, hcb, on_connect_lambda, MqttClient.calls, MqttClient.call,
        MqttClient.publishRetained, MqttClient.subscribe, Session.emit, hm, hr]
  · intro hcode
    simp [MqttClient.onConnect, hcb, on_connect_lambda, hcode, MqttClient.calls]

/-- Witness of C18: the session of `main` after `connect`, not yet connected,
and the refusal code 5. -/
theorem online_status_reaches_transport_witness :
    (MqttClient.connect (fun _ _ => 0)
      (main_configure (fun _ _ => 0) "sensor_simulator" "" "" "off" "on")
      "localhost" 1883 60).2.client.mosq_ = true ∧
    (MqttClient.connect (fun _ _ => 0)
      (main_configure (fun _ _ => 0) "sensor_simulator" "" "" "off" "on")
      "localhost" 1883 60).2.client.on_connect_callback_
      = some (on_connect_lambda true "on") ∧
    (on_connect_lambda true "on" 0
      = [ .publishRetained "sensor/status" "on" 1, .subscribe "action/#" 1 ] ∧
    (MqttClient.onConnect (fun _ _ => 0) (MqttClient.connect (fun _ _ => 0)
      (main_configure (fun _ _ => 0) "sensor_simulator" "" "" "off" "on")
      "localhost" 1883 60).2 0).trace
      = (MqttClient.connect (fun _ _ => 0)
          (main_configure (fun _ _ => 0) "sensor_simulator" "" "" "off" "on")
          "localhost" 1883 60).2.trace
        ++ [ .mosquitto_publish "sensor/status" "on".utf8ByteSize "on" 1 true,
             .mosquitto_subscribe "action/#" 1 ] ∧
    ((5 : Int) ≠ 0 → on_connect_lambda true "on" 5 = [] ∧
      (MqttClient.onConnect (fun _ _ => 0) (MqttClient.connect (fun _ _ => 0)
        (main_configure (fun _ _ => 0) "sensor_simulator" "" "" "off" "on")
        "localhost" 1883 60).2 5).trace
        = (MqttClient.connect (fun _ _ => 0)
            (main_configure (fun _ _ => 0) "sensor_simulator" "" "" "off" "on")
            "localhost" 1883 60).2.trace)) :=
  have hm : (MqttClient.connect (fun _ _ => 0)
      (main_configure (fun _ _ => 0) "sensor_simulator" "" "" "off" "on")
      "localhost" 1883 60).2.client.mosq_ = true := by
    rw [connect_client]
    rfl
  have hcb : (MqttClient.connect (fun _ _ => 0)
      (main_configure (fun _ _ => 0) "sensor_simulator" "" "" "off" "on")
      "localhost" 1883 60).2.client.on_connect_callback_
      = some (on_connect_lambda true "on") := by
    rw [connect_client]
    rfl
  ⟨hm, hcb, online_status_reaches_transport (fun _ _ => 0) _ "on" 5 hm hcb⟩

/-! ## The compass heading -/

/-- C19, evaluated with the compass variation 1000 (as set by `--compass-var
1000`), the heading 0 of the first call and the draw 270 from `[0, 360)`: the
value returned is 390, outside the range from 0 to 360, because 360 is
subtracted only once. -/
theorem compass_heading_leaves_range :
    (0 : ℚ) ≤ 270 ∧ (270 : ℚ) < 360 ∧
    simulateCompassHeading 1000 0 270 = 390 ∧
    ¬ simulateCompassHeading 1000 0 270 < 360 := by
  have h : simulateCompassHeading 1000 0 270 = 390 := by
    norm_num [simulateCompassHeading]
  refine ⟨by norm_num, by norm_num, h, ?_⟩
  rw [h]
  norm_num

end SensorCore
